import Mathlib

/-!
Verification of the layout-compiler logic of `src/villa.py`.

The geometric computations of the script (wall-segment resolution, opening
placement, plan assembly) are embedded as pure functions over the real
numbers: Blender `location` triples become `center`, `scale` triples become
`extents`, and `rotation_euler.z` becomes `rotationZ`.  Python's
`math.atan2 (y, x)` is modelled as the complex argument of `x + y*i`
(both have range `(-pi, pi]`), and `(..)**0.5` on a sum of squares as
`Real.sqrt`.  All host-API calls (mesh creation, materials, collections)
are dropped; only the numeric payload of each created object is kept.
-/

noncomputable section

open Real

/-- Triple of reals, embedding Blender `location` / `scale` vectors. -/
structure Vec3 where
  x : ℝ
  y : ℝ
  z : ℝ

/-- Kind of object emitted by the script, one per `create_*` family. -/
inductive ObjKind
  | floor
  | wall
  | window
  | door
  | furniture
  | light
  | camera
deriving DecidableEq

/-- Descriptor of one created scene object: its `kind`, Blender object
`name`, `center` (the `location` passed to the primitive-add call),
`extents` (the `scale` vector assigned afterwards), `rotationZ`
(`rotation_euler.z`, `0` when the script never sets it) and the material
slot appended (`none` for lights and the camera, which get no material). -/
structure SolidDescriptor where
  kind : ObjKind
  name : String
  center : Vec3
  extents : Vec3
  rotationZ : ℝ
  material : Option String

/-- Python `math.atan2 y x`, modelled as the argument of `x + y*i`. -/
def atan2 (y x : ℝ) : ℝ := Complex.arg (x + y * Complex.I)

/-- Loop body of `create_interior_walls` (src/villa.py lines 163-207):
resolve one wall segment from `p` to `q` with the given `height` and
`wall_thickness` into the cube descriptor the script creates.  The length
is `((qx-px)**2 + (qy-py)**2)**0.5`, the center the midpoint at `height/2`;
the scale puts the length on the x axis when `|dy| < |dx|` (`is_horizontal`)
and on the y axis otherwise, and `rotation_euler.z` is set to
`atan2(dy, dx) - pi/2` only when the segment is neither `is_horizontal`
nor has `|dx| < 0.01`. -/
def resolveWall (name : String) (p q : ℝ × ℝ) (height wall_thickness : ℝ) :
    SolidDescriptor :=
  let wall_length : ℝ := Real.sqrt ((q.1 - p.1) ^ 2 + (q.2 - p.2) ^ 2)
  let wall_center_x : ℝ := (p.1 + q.1) / 2
  let wall_center_y : ℝ := (p.2 + q.2) / 2
  let scale : Vec3 :=
    if |q.2 - p.2| < |q.1 - p.1| then
      ⟨wall_length, wall_thickness, height⟩
    else
      ⟨wall_thickness, wall_length, height⟩
  let angle : ℝ :=
    if ¬ |q.2 - p.2| < |q.1 - p.1| ∧ ¬ |q.1 - p.1| < 0.01 then
      atan2 (q.2 - p.2) (q.1 - p.1) - π / 2
    else 0
  { kind := .wall, name := name,
    center := ⟨wall_center_x, wall_center_y, height / 2⟩,
    extents := scale, rotationZ := angle, material := some "wall" }

/-- One entry of the `interior_walls` table (a `start`/`end`/`height` dict;
`end` is a Lean keyword, so the field is called `stop`). -/
structure WallSegmentData where
  start : ℝ × ℝ
  stop : ℝ × ℝ
  height : ℝ

/-- The hard-coded `interior_walls` table (lines 151-158). -/
def interior_walls : List WallSegmentData :=
  [⟨(6.0, 0.0), (6.0, 9.0), 2.4⟩,
   ⟨(9.0, 9.0), (18.0, 9.0), 2.4⟩,
   ⟨(9.0, 0.0), (9.0, 9.0), 2.4⟩,
   ⟨(12.0, 5.0), (18.0, 5.0), 2.4⟩,
   ⟨(15.0, 5.0), (15.0, 9.0), 2.4⟩]

/-- The `wall_thickness = 0.15` local of `create_interior_walls` (line 161). -/
def interior_wall_thickness : ℝ := 0.15

/-- `create_interior_walls` (lines 150-209): an append loop over the
enumerated `interior_walls` table. -/
def create_interior_walls : List SolidDescriptor :=
  interior_walls.enum.foldl
    (fun acc iw =>
      acc ++ [resolveWall ("InteriorWall_" ++ toString (iw.1 + 1))
        iw.2.start iw.2.stop iw.2.height interior_wall_thickness])
    []

/-- `create_walls` (lines 98-147): the four outer walls, walking the corner
list `(0,0), (width,0), (width,depth), (0,depth)` with wrap-around; wall `i`
is horizontal (length on x) when `i` is even and vertical otherwise, and is
never rotated. -/
def create_walls (width depth height wall_thickness : ℝ) : List SolidDescriptor :=
  let wall_vertices : List (ℝ × ℝ) := [(0, 0), (width, 0), (width, depth), (0, depth)]
  (List.range 4).foldl
    (fun walls i =>
      let s := wall_vertices.getD i (0, 0)
      let q := wall_vertices.getD ((i + 1) % 4) (0, 0)
      let wall_length : ℝ := Real.sqrt ((q.1 - s.1) ^ 2 + (q.2 - s.2) ^ 2)
      let scale : Vec3 :=
        if i % 2 = 0 then ⟨wall_length, wall_thickness, height⟩
        else ⟨wall_thickness, wall_length, height⟩
      walls ++ [{ kind := .wall, name := "Wall_" ++ toString (i + 1),
                  center := ⟨(s.1 + q.1) / 2, (s.2 + q.2) / 2, height / 2⟩,
                  extents := scale, rotationZ := 0, material := some "wall" }])
    []

/-- One entry of the `windows` table: position, width, height and the
optional `rotate` flag (`.get("rotate", False)` in source). -/
structure WindowData where
  pos : ℝ × ℝ
  width : ℝ
  height : ℝ
  rotate : Bool

/-- The hard-coded `windows` table (lines 214-221). -/
def windows : List WindowData :=
  [⟨(1.5, 0.0), 1.2, 1.4, false⟩,
   ⟨(4.5, 0.0), 1.2, 1.4, false⟩,
   ⟨(13.5, 0.0), 1.2, 1.4, false⟩,
   ⟨(16.5, 0.0), 1.2, 1.4, false⟩,
   ⟨(0.0, 3.0), 1.2, 1.4, true⟩,
   ⟨(18.0, 7.0), 1.2, 1.4, true⟩]

/-- The `wall_thickness = 0.15` local of `create_windows` (line 224). -/
def window_wall_thickness : ℝ := 0.15

/-- The `sill_height = 0.9` local of `create_windows` (line 225). -/
def window_sill_height : ℝ := 0.9

/-- Loop body of `create_windows` (lines 227-262): the window cube sits at
`(pos.x, pos.y + wall_thickness/2 if rotate else pos.y, sill + height/2)`,
scaled `(wall_thickness, width, height)` when `rotate` and
`(width, wall_thickness, height)` otherwise; rotation is never set. -/
def resolveWindow (name : String) (w : WindowData) : SolidDescriptor :=
  { kind := .window, name := name,
    center := ⟨w.pos.1,
               if w.rotate then w.pos.2 + window_wall_thickness / 2 else w.pos.2,
               window_sill_height + w.height / 2⟩,
    extents :=
      if w.rotate then ⟨window_wall_thickness, w.width, w.height⟩
      else ⟨w.width, window_wall_thickness, w.height⟩,
    rotationZ := 0, material := some "glass" }

/-- `create_windows` (lines 212-264): an append loop over the enumerated
`windows` table. -/
def create_windows : List SolidDescriptor :=
  windows.enum.foldl
    (fun acc iw => acc ++ [resolveWindow ("Window_" ++ toString (iw.1 + 1)) iw.2])
    []

/-- One entry of the `doors` table. -/
structure DoorData where
  pos : ℝ × ℝ
  width : ℝ
  height : ℝ
  rotate : Bool

/-- The hard-coded `doors` table (lines 269-276); the last entry is the
front door. -/
def doors : List DoorData :=
  [⟨(9.0, 2.0), 0.9, 2.1, false⟩,
   ⟨(9.0, 6.0), 0.9, 2.1, false⟩,
   ⟨(12.0, 6.0), 0.9, 2.1, false⟩,
   ⟨(12.0, 8.0), 0.9, 2.1, true⟩,
   ⟨(15.0, 7.0), 0.9, 2.1, false⟩,
   ⟨(9.0, 0.5), 1.2, 2.1, true⟩]

/-- Loop body of `create_doors` (lines 280-311): the door cube sits at
`(pos.x, pos.y, height/2)` (no y adjustment), scaled `(width, 0.05, height)`
when `rotate` and `(0.05, width, height)` otherwise; rotation is never set
and the thin extent is the literal `0.05`, not a wall thickness. -/
def resolveDoor (name : String) (d : DoorData) : SolidDescriptor :=
  { kind := .door, name := name,
    center := ⟨d.pos.1, d.pos.2, d.height / 2⟩,
    extents :=
      if d.rotate then ⟨d.width, 0.05, d.height⟩
      else ⟨0.05, d.width, d.height⟩,
    rotationZ := 0, material := some "wood" }

/-- `create_doors` (lines 267-313): an append loop over the enumerated
`doors` table. -/
def create_doors : List SolidDescriptor :=
  doors.enum.foldl
    (fun acc dd => acc ++ [resolveDoor ("Door_" ++ toString (dd.1 + 1)) dd.2])
    []

/-- `create_floor` (lines 78-95): a plane at the origin scaled to
`(width, depth)`; its z scale is left at the default `1`. -/
def create_floor (width depth : ℝ) : SolidDescriptor :=
  { kind := .floor, name := "Floor", center := ⟨0, 0, 0⟩,
    extents := ⟨width, depth, 1⟩, rotationZ := 0, material := some "floor" }

/-- `create_furniture` (lines 316-400): the nine hard-coded furniture cubes
in creation order. -/
def create_furniture : List SolidDescriptor :=
  [{ kind := .furniture, name := "Sofa", center := ⟨3.0, 6.0, 0.4⟩,
     extents := ⟨2.5, 0.9, 0.8⟩, rotationZ := 0, material := some "fabric" },
   { kind := .furniture, name := "CoffeeTable", center := ⟨5.0, 6.0, 0.25⟩,
     extents := ⟨1.2, 0.8, 0.5⟩, rotationZ := 0, material := some "wood" },
   { kind := .furniture, name := "DiningTable", center := ⟨5.0, 3.0, 0.4⟩,
     extents := ⟨1.8, 1.0, 0.8⟩, rotationZ := 0, material := some "wood" },
   { kind := .furniture, name := "KitchenCounter", center := ⟨14.0, 8.0, 0.45⟩,
     extents := ⟨2.0, 0.6, 0.9⟩, rotationZ := 0, material := some "kitchen" },
   { kind := .furniture, name := "Bed1", center := ⟨3.0, 2.0, 0.3⟩,
     extents := ⟨2.0, 1.4, 0.6⟩, rotationZ := 0, material := some "fabric" },
   { kind := .furniture, name := "Bed2", center := ⟨3.0, 7.0, 0.3⟩,
     extents := ⟨2.0, 1.4, 0.6⟩, rotationZ := 0, material := some "fabric" },
   { kind := .furniture, name := "Bed3", center := ⟨16.5, 7.0, 0.3⟩,
     extents := ⟨2.0, 1.4, 0.6⟩, rotationZ := 0, material := some "fabric" },
   { kind := .furniture, name := "Toilet", center := ⟨14.0, 3.5, 0.2⟩,
     extents := ⟨0.6, 0.4, 0.4⟩, rotationZ := 0, material := some "wall" },
   { kind := .furniture, name := "Shower", center := ⟨13.0, 2.0, 0.1⟩,
     extents := ⟨1.0, 1.0, 0.2⟩, rotationZ := 0, material := some "wall" }]

/-- `create_lighting` (lines 403-421): the sun and area lights, as
pass-through manifest entries (energy is host metadata and not kept). -/
def create_lighting : List SolidDescriptor :=
  [{ kind := .light, name := "Sun", center := ⟨5, 5, 10⟩,
     extents := ⟨1, 1, 1⟩, rotationZ := 0, material := none },
   { kind := .light, name := "AmbientLight", center := ⟨9, 5, 5⟩,
     extents := ⟨18, 9, 1⟩, rotationZ := 0, material := none }]

/-- `create_camera` (lines 424-435): the camera proxy; its rotation is about
the x axis, so `rotationZ = 0`. -/
def create_camera : SolidDescriptor :=
  { kind := .camera, name := "FloorPlanCamera", center := ⟨9, -10, 15⟩,
    extents := ⟨1, 1, 1⟩, rotationZ := 0, material := none }

/-- The overall plan parameters: the four locals of `create_floor_plan`
(lines 455-458). -/
structure PlanSpec where
  width : ℝ
  depth : ℝ
  height : ℝ
  wall_thickness : ℝ

/-- `create_floor_plan` (lines 453-497) with its four local dimension
constants lifted into a `PlanSpec` parameter: the emitted descriptor
sequence, in the call order of the source (floor, outer walls, interior
walls, windows, doors, furniture, lights, camera). -/
def buildLayout (plan : PlanSpec) : List SolidDescriptor :=
  [create_floor plan.width plan.depth]
    ++ create_walls plan.width plan.depth plan.height plan.wall_thickness
    ++ create_interior_walls
    ++ create_windows
    ++ create_doors
    ++ create_furniture
    ++ create_lighting
    ++ [create_camera]

/-- The script's actual run: `create_floor_plan` hard-codes width 18,
depth 9, height 2.4 and wall thickness 0.15. -/
def create_floor_plan : List SolidDescriptor := buildLayout ⟨18, 9, 2.4, 0.15⟩

/-- Rotation of a plan point by `θ` about the origin (used to state the
rotation-consistency property of the spec; not part of the source). -/
def rotatePoint (θ : ℝ) (v : ℝ × ℝ) : ℝ × ℝ :=
  (v.1 * Real.cos θ - v.2 * Real.sin θ, v.1 * Real.sin θ + v.2 * Real.cos θ)

/-! ## Helper lemmas -/

/-- Projection of the rotation field of `resolveWall`: the script sets
`rotation_euler.z` only for segments that are neither horizontal nor have
`|dx| < 0.01`. -/
theorem resolveWall_rotationZ (n : String) (p q : ℝ × ℝ) (h t : ℝ) :
    (resolveWall n p q h t).rotationZ =
      if ¬ |q.2 - p.2| < |q.1 - p.1| ∧ ¬ |q.1 - p.1| < 0.01 then
        atan2 (q.2 - p.2) (q.1 - p.1) - π / 2
      else 0 := rfl

/-- Projection of the scale field of `resolveWall`. -/
theorem resolveWall_extents (n : String) (p q : ℝ × ℝ) (h t : ℝ) :
    (resolveWall n p q h t).extents =
      if |q.2 - p.2| < |q.1 - p.1| then
        ⟨Real.sqrt ((q.1 - p.1) ^ 2 + (q.2 - p.2) ^ 2), t, h⟩
      else ⟨t, Real.sqrt ((q.1 - p.1) ^ 2 + (q.2 - p.2) ^ 2), h⟩ := rfl

/-- Rotating a plane vector by `θ` shifts its `atan2` angle by `θ`, modulo
`2π`. -/
theorem atan2_rotate (dx dy θ : ℝ) (hdx : dx ≠ 0) :
    ∃ k : ℤ, atan2 (dx * Real.sin θ + dy * Real.cos θ) (dx * Real.cos θ - dy * Real.sin θ)
      = θ + atan2 dy dx + 2 * π * k := by
  have hz : ((dx : ℂ) + (dy : ℂ) * Complex.I) ≠ 0 := by
    intro h
    have h1 : ((dx : ℂ) + (dy : ℂ) * Complex.I).re = dx := by simp
    rw [h] at h1
    exact hdx (by simpa using h1.symm)
  have hw : (((Real.cos θ : ℝ) : ℂ) + ((Real.sin θ : ℝ) : ℂ) * Complex.I) ≠ 0 := by
    intro h
    have hc : Real.cos θ = 0 := by
      have h1 := congrArg Complex.re h
      simpa using h1
    have hs : Real.sin θ = 0 := by
      have h1 := congrArg Complex.im h
      simpa using h1
    have hsc := Real.sin_sq_add_cos_sq θ
    rw [hc, hs] at hsc
    norm_num at hsc
  have hmul : (((dx * Real.cos θ - dy * Real.sin θ : ℝ) : ℂ)
        + ((dx * Real.sin θ + dy * Real.cos θ : ℝ) : ℂ) * Complex.I)
      = (((Real.cos θ : ℝ) : ℂ) + ((Real.sin θ : ℝ) : ℂ) * Complex.I)
        * ((dx : ℂ) + (dy : ℂ) * Complex.I) := by
    apply Complex.ext <;> simp <;> ring
  have hargw : ((Complex.arg (((Real.cos θ : ℝ) : ℂ) + ((Real.sin θ : ℝ) : ℂ) * Complex.I) : ℝ)
      : Real.Angle) = (θ : Real.Angle) := by
    have h1 := Complex.arg_cos_add_sin_mul_I_coe_angle (θ : Real.Angle)
    rwa [Real.Angle.cos_coe, Real.Angle.sin_coe] at h1
  have hangle : ((Complex.arg ((((Real.cos θ : ℝ) : ℂ) + ((Real.sin θ : ℝ) : ℂ) * Complex.I)
        * ((dx : ℂ) + (dy : ℂ) * Complex.I)) : ℝ) : Real.Angle)
      = ((θ + Complex.arg ((dx : ℂ) + (dy : ℂ) * Complex.I) : ℝ) : Real.Angle) := by
    rw [Complex.arg_mul_coe_angle hw hz, Real.Angle.coe_add, hargw]
  rw [Real.Angle.angle_eq_iff_two_pi_dvd_sub] at hangle
  obtain ⟨k, hk⟩ := hangle
  refine ⟨k, ?_⟩
  unfold atan2
  rw [hmul]
  push_cast at hk ⊢
  linarith [hk]

/-- The argument of `1 + 2i` is strictly positive. -/
theorem arg_one_add_two_I_pos : 0 < Complex.arg (1 + 2 * Complex.I) := by
  have h0 : (0 : ℝ) ≤ Complex.arg (1 + 2 * Complex.I) := by
    rw [Complex.arg_nonneg_iff]
    simp
  rcases lt_or_eq_of_le h0 with h | h
  · exact h
  · exfalso
    have := Complex.arg_eq_zero_iff.mp h.symm
    simp at this

/-- The argument of `1 + 2i` is below `π/2`. -/
theorem arg_one_add_two_I_lt : Complex.arg (1 + 2 * Complex.I) < π / 2 := by
  have hre : (0 : ℝ) < (1 + 2 * Complex.I).re := by norm_num
  have h : |Complex.arg (1 + 2 * Complex.I)| < π / 2 :=
    Complex.abs_arg_lt_pi_div_two_iff.mpr (Or.inl hre)
  exact lt_of_abs_lt h

/-! ## Claims -/

/-- Counterexample to claim C1: on the degenerate segment with both
endpoints `(0,0)` the wall resolver of `create_interior_walls` does not
fail — there is no degeneracy check in the code — but returns an ordinary
descriptor whose y extent is `0`, i.e. it silently produces a zero-extent
box. -/
theorem C1_cex_degenerate_zero_extent_box :
    resolveWall "InteriorWall_deg" (0, 0) (0, 0) 2.4 0.15 =
      { kind := .wall, name := "InteriorWall_deg", center := ⟨0, 0, 1.2⟩,
        extents := ⟨0.15, 0, 2.4⟩, rotationZ := 0, material := some "wall" } := by
  simp [resolveWall]
  norm_num

/-- Claim C1 (corrected): `resolveWall` performs no degeneracy check.  For
every segment whose endpoints coincide it returns a normal descriptor with
a zero length extent — extents `(thickness, 0, height)` — centered at the
point at `height/2`, with `rotationZ = 0`; no `DegenerateSegment` failure
exists in the code. -/
theorem C1_resolveWall_degenerate_no_failure (n : String) (p : ℝ × ℝ) (h t : ℝ) :
    resolveWall n p p h t =
      { kind := .wall, name := n, center := ⟨p.1, p.2, h / 2⟩,
        extents := ⟨t, 0, h⟩, rotationZ := 0, material := some "wall" } := by
  simp [resolveWall]
  norm_num

/-- Counterexample to claim C2: the front-door descriptor (door table entry
`(9.0, 0.5)`, width 1.2, height 2.1, rotate true) has extents
`(1.2, 0.05, 2.1)` — long in X and thin in Y — which is neither
`(0.15, 1.2, 2.1)` nor `(0.05, 1.2, 2.1)`, so it is not thin in X and long
in Y as the claim states. -/
theorem C2_cex_front_door_extents :
    (resolveDoor "Door_6" ⟨(9, 0.5), 1.2, 2.1, true⟩).extents = ⟨1.2, 0.05, 2.1⟩ ∧
      (⟨1.2, 0.05, 2.1⟩ : Vec3) ≠ ⟨0.15, 1.2, 2.1⟩ ∧
      (⟨1.2, 0.05, 2.1⟩ : Vec3) ≠ ⟨0.05, 1.2, 2.1⟩ := by
  refine ⟨rfl, ?_, ?_⟩ <;> intro h <;> rw [Vec3.mk.injEq] at h <;> norm_num at h

/-- Claim C2 (corrected): the front door (orientationFlag true, position
`(9.0, 0.5)`, width 1.2, height 2.1) resolves to extents `(1.2, 0.05, 2.1)`
— long (the width) in X and thin (the fixed 0.05) in Y, the mirror image of
the window rotate branch — with center z = 1.05 and no Y-nudge applied to
its position. -/
theorem C2_front_door_descriptor :
    resolveDoor "Door_6" ⟨(9, 0.5), 1.2, 2.1, true⟩ =
      { kind := .door, name := "Door_6", center := ⟨9, 0.5, 1.05⟩,
        extents := ⟨1.2, 0.05, 2.1⟩, rotationZ := 0, material := some "wood" } := by
  simp [resolveDoor]
  norm_num

/-- Counterexample to claim C3: for the segment from `(0,0)` to
`(1/200, 1)` we have `|Δx| = 0.005`, which is at least the claimed epsilon
`1e-6`, so the claim predicts `rotationZ = atan2(Δy, Δx) − π/2 ≠ 0`; the
code, whose vertical threshold is `0.01`, produces `rotationZ = 0`. -/
theorem C3_cex_vertical_threshold :
    (resolveWall "w" (0, 0) (1 / 200, 1) 2.4 0.15).rotationZ = 0 ∧
      atan2 1 (1 / 200) - π / 2 ≠ 0 ∧ (1e-6 : ℝ) ≤ |(1 / 200 : ℝ) - 0| := by
  have habs : |(1 / 200 : ℝ) - 0| = 1 / 200 := by
    rw [sub_zero]
    exact abs_of_nonneg (by norm_num)
  refine ⟨?_, ?_, by rw [habs]; norm_num⟩
  · rw [resolveWall_rotationZ, if_neg]
    rintro ⟨c1, c2⟩
    apply c2
    show |(1 / 200 : ℝ) - 0| < 0.01
    rw [habs]
    norm_num
  · have hre : (0 : ℝ) < ((1 / 200 : ℝ) + (1 : ℝ) * Complex.I).re := by norm_num
    have h : |Complex.arg ((1 / 200 : ℝ) + (1 : ℝ) * Complex.I)| < π / 2 :=
      Complex.abs_arg_lt_pi_div_two_iff.mpr (Or.inl hre)
    have h2 := lt_of_abs_lt h
    unfold atan2
    intro hc
    push_cast at hc h2
    linarith

/-- Claim C3 (corrected): `resolveWall` decides `isHorizontal = |Δy| < |Δx|`;
if horizontal, extents `(length, thickness, height)` with `rotationZ = 0`;
if not horizontal and `|Δx| < 0.01` (the code's vertical threshold, not the
1e-6 epsilon), extents `(thickness, length, height)` with `rotationZ = 0`;
otherwise extents `(thickness, length, height)` with
`rotationZ = atan2(Δy, Δx) − π/2`. -/
theorem C3_resolveWall_branches (n : String) (p q : ℝ × ℝ) (h t : ℝ) :
    resolveWall n p q h t =
      if |q.2 - p.2| < |q.1 - p.1| then
        { kind := .wall, name := n,
          center := ⟨(p.1 + q.1) / 2, (p.2 + q.2) / 2, h / 2⟩,
          extents := ⟨Real.sqrt ((q.1 - p.1) ^ 2 + (q.2 - p.2) ^ 2), t, h⟩,
          rotationZ := 0, material := some "wall" }
      else if |q.1 - p.1| < 0.01 then
        { kind := .wall, name := n,
          center := ⟨(p.1 + q.1) / 2, (p.2 + q.2) / 2, h / 2⟩,
          extents := ⟨t, Real.sqrt ((q.1 - p.1) ^ 2 + (q.2 - p.2) ^ 2), h⟩,
          rotationZ := 0, material := some "wall" }
      else
        { kind := .wall, name := n,
          center := ⟨(p.1 + q.1) / 2, (p.2 + q.2) / 2, h / 2⟩,
          extents := ⟨t, Real.sqrt ((q.1 - p.1) ^ 2 + (q.2 - p.2) ^ 2), h⟩,
          rotationZ := atan2 (q.2 - p.2) (q.1 - p.1) - π / 2,
          material := some "wall" } := by
  by_cases hA : |q.2 - p.2| < |q.1 - p.1| <;> by_cases hB : |q.1 - p.1| < 0.01 <;>
    simp [resolveWall, hA, hB]

/-- Counterexample to claim C4: the segment from `(0,0)` to `(1,2)` is
diagonal (neither Δx nor Δy is zero), yet after rotating its endpoints by
`θ = π/2` the resolved `rotationZ` does not differ from the original one by
`θ` modulo `π`: the rotated segment `(0,0)–(-2,1)` falls into the
horizontal branch and gets `rotationZ = 0`, while the original gets
`arg(1+2i) − π/2`, and `arg(1+2i)` is not an integer multiple of `π`. -/
theorem C4_cex_rotation_consistency_fails : ¬ ∃ k : ℤ,
    (resolveWall "w" (rotatePoint (π / 2) (0, 0)) (rotatePoint (π / 2) (1, 2)) 2.4 0.15).rotationZ
      = (resolveWall "w" (0, 0) (1, 2) 2.4 0.15).rotationZ + π / 2 + k * π := by
  have hrot0 : (resolveWall "w" (rotatePoint (π / 2) (0, 0)) (rotatePoint (π / 2) (1, 2))
      2.4 0.15).rotationZ = 0 := by
    rw [resolveWall_rotationZ, if_neg]
    rintro ⟨c1, c2⟩
    apply c1
    simp [rotatePoint, Real.cos_pi_div_two, Real.sin_pi_div_two]
  have hrot1 : (resolveWall "w" ((0 : ℝ), (0 : ℝ)) ((1 : ℝ), (2 : ℝ)) 2.4 0.15).rotationZ
      = Complex.arg (1 + 2 * Complex.I) - π / 2 := by
    rw [resolveWall_rotationZ, if_pos]
    · show atan2 (2 - 0) (1 - 0) - π / 2 = _
      unfold atan2
      norm_num
    · constructor <;> norm_num
  rintro ⟨k, hk⟩
  rw [hrot0, hrot1] at hk
  rcases le_or_lt 0 k with hk0 | hk0
  · have hc : (0 : ℝ) ≤ (k : ℝ) * π :=
      mul_nonneg (by exact_mod_cast hk0) Real.pi_pos.le
    have := arg_one_add_two_I_pos
    linarith
  · have hk1i : k ≤ -1 := by omega
    have hk1 : (k : ℝ) ≤ -1 := by exact_mod_cast hk1i
    have hc : (k : ℝ) * π ≤ (-1) * π := by
      exact mul_le_mul_of_nonneg_right hk1 Real.pi_pos.le
    have := arg_one_add_two_I_lt
    have hpi := Real.pi_pos
    linarith

/-- Claim C4 (corrected): `resolveWall` is rotation-consistent exactly on
the segments the code actually rotates: if both the original segment and
its image under rotation by `θ` about the origin satisfy
`¬(|Δy| < |Δx|)` and `¬(|Δx| < 0.01)` (the rotated branch), then the
re-resolved descriptor's `rotationZ` differs from the original's by exactly
`θ` modulo `π`. -/
theorem C4_rotation_consistency_on_rotated_branch (p q : ℝ × ℝ) (h t θ : ℝ)
    (n1 n2 : String)
    (h1 : ¬ |q.2 - p.2| < |q.1 - p.1|) (h2 : ¬ |q.1 - p.1| < 0.01)
    (h3 : ¬ |(rotatePoint θ q).2 - (rotatePoint θ p).2|
        < |(rotatePoint θ q).1 - (rotatePoint θ p).1|)
    (h4 : ¬ |(rotatePoint θ q).1 - (rotatePoint θ p).1| < 0.01) :
    ∃ k : ℤ, (resolveWall n2 (rotatePoint θ p) (rotatePoint θ q) h t).rotationZ
      = (resolveWall n1 p q h t).rotationZ + θ + k * π := by
  have hdx : q.1 - p.1 ≠ 0 := by
    intro h0
    rw [h0] at h2
    simp at h2
    norm_num at h2
  have e1 : (rotatePoint θ q).1 - (rotatePoint θ p).1
      = (q.1 - p.1) * Real.cos θ - (q.2 - p.2) * Real.sin θ := by
    simp [rotatePoint]; ring
  have e2 : (rotatePoint θ q).2 - (rotatePoint θ p).2
      = (q.1 - p.1) * Real.sin θ + (q.2 - p.2) * Real.cos θ := by
    simp [rotatePoint]; ring
  obtain ⟨k, hk⟩ := atan2_rotate (q.1 - p.1) (q.2 - p.2) θ hdx
  refine ⟨2 * k, ?_⟩
  rw [resolveWall_rotationZ, resolveWall_rotationZ, if_pos ⟨h3, h4⟩, if_pos ⟨h1, h2⟩]
  rw [e1, e2, hk]
  push_cast
  ring

/-- Witness for claim C4: the vertical-ish segment `(0,0)–(1,10)` rotated
by `θ = π` lands in the rotated branch on both sides, and its rotation
angle shifts by `π` modulo `π`. -/
theorem C4_rotation_consistency_witness : ∃ k : ℤ,
    (resolveWall "w" (rotatePoint π (0, 0)) (rotatePoint π (1, 10)) 2.4 0.15).rotationZ
      = (resolveWall "w" (0, 0) (1, 10) 2.4 0.15).rotationZ + π + k * π :=
  C4_rotation_consistency_on_rotated_branch (0, 0) (1, 10) 2.4 0.15 π "w" "w"
    (by norm_num) (by norm_num)
    (by simp [rotatePoint, Real.cos_pi, Real.sin_pi])
    (by simp [rotatePoint, Real.cos_pi, Real.sin_pi]; norm_num)

/-- Claim C5 (confirmed): for every window, extents are
`(width, wallThickness, height)` with the Y position unmodified when the
rotate flag is false, and `(wallThickness, width, height)` with the Y
position nudged by `+wallThickness/2` when it is true; `rotationZ` is 0 in
both cases (the window wall thickness is the code's fixed 0.15). -/
theorem C5_window_orientation (n : String) (w : WindowData) :
    (resolveWindow n w).extents =
        (if w.rotate then (⟨window_wall_thickness, w.width, w.height⟩ : Vec3)
         else ⟨w.width, window_wall_thickness, w.height⟩) ∧
      (resolveWindow n w).center.y =
        (if w.rotate then w.pos.2 + window_wall_thickness / 2 else w.pos.2) ∧
      (resolveWindow n w).rotationZ = 0 := by
  cases hr : w.rotate <;> simp [resolveWindow, hr]

/-- Claim C6 (confirmed): every window descriptor's center z is
`sillHeight + height/2` (with the code's sill height 0.9) and every door
descriptor's center z is `height/2`, i.e. doors have an implicit sill
height of 0. -/
theorem C6_opening_elevation (nw nd : String) (w : WindowData) (d : DoorData) :
    (resolveWindow nw w).center.z = window_sill_height + w.height / 2 ∧
      (resolveDoor nd d).center.z = d.height / 2 :=
  ⟨rfl, rfl⟩

/-- Claim C7 (confirmed): `buildLayout` emits the groups in the fixed
order floor, outer walls, interior walls, windows, doors, furniture,
lights, camera, and inside each table-driven group the append loop
preserves the input iteration order (the loops equal a `map` over the
enumerated input); the name and kind manifests of the output list are the
fixed sequences below. -/
theorem C7_emission_order (plan : PlanSpec) :
    buildLayout plan =
        [create_floor plan.width plan.depth]
          ++ create_walls plan.width plan.depth plan.height plan.wall_thickness
          ++ interior_walls.enum.map (fun iw =>
              resolveWall ("InteriorWall_" ++ toString (iw.1 + 1))
                iw.2.start iw.2.stop iw.2.height interior_wall_thickness)
          ++ windows.enum.map (fun iw =>
              resolveWindow ("Window_" ++ toString (iw.1 + 1)) iw.2)
          ++ doors.enum.map (fun dd =>
              resolveDoor ("Door_" ++ toString (dd.1 + 1)) dd.2)
          ++ create_furniture ++ create_lighting ++ [create_camera] ∧
      (buildLayout plan).map SolidDescriptor.name =
        ["Floor", "Wall_1", "Wall_2", "Wall_3", "Wall_4",
         "InteriorWall_1", "InteriorWall_2", "InteriorWall_3", "InteriorWall_4",
         "InteriorWall_5",
         "Window_1", "Window_2", "Window_3", "Window_4", "Window_5", "Window_6",
         "Door_1", "Door_2", "Door_3", "Door_4", "Door_5", "Door_6",
         "Sofa", "CoffeeTable", "DiningTable", "KitchenCounter", "Bed1", "Bed2",
         "Bed3", "Toilet", "Shower", "Sun", "AmbientLight", "FloorPlanCamera"] ∧
      (buildLayout plan).map SolidDescriptor.kind =
        [ObjKind.floor] ++ List.replicate 4 ObjKind.wall
          ++ List.replicate 5 ObjKind.wall ++ List.replicate 6 ObjKind.window
          ++ List.replicate 6 ObjKind.door ++ List.replicate 9 ObjKind.furniture
          ++ List.replicate 2 ObjKind.light ++ [ObjKind.camera] :=
  ⟨rfl, rfl, rfl⟩

/-- Claim C8 (confirmed): `buildLayout` is a pure function of its
`PlanSpec`: two calls on the same plan value produce element-wise identical
descriptor sequences. -/
theorem C8_buildLayout_deterministic (p q : PlanSpec) (hpq : p = q) :
    buildLayout p = buildLayout q := by
  rw [hpq]

/-- Witness for claim C8 at the script's own plan values. -/
theorem C8_buildLayout_deterministic_witness :
    buildLayout ⟨18, 9, 2.4, 0.15⟩ = buildLayout ⟨18, 9, 2.4, 0.15⟩ :=
  C8_buildLayout_deterministic ⟨18, 9, 2.4, 0.15⟩ ⟨18, 9, 2.4, 0.15⟩ rfl

/-- Claim C9 (confirmed): every door's thin extent is the fixed constant
0.05, not the plan's wall thickness: extents are `(width, 0.05, height)`
when the rotate flag is set and `(0.05, width, height)` otherwise, and the
door block of `buildLayout` (positions 16-21 of the output) is the constant
list `create_doors`, independent of the plan and hence of its
`wall_thickness`. -/
theorem C9_door_thin_extent_constant (n : String) (d : DoorData) (plan : PlanSpec) :
    (resolveDoor n d).extents =
        (if d.rotate then (⟨d.width, 0.05, d.height⟩ : Vec3)
         else ⟨0.05, d.width, d.height⟩) ∧
      ((buildLayout plan).drop 16).take 6 = create_doors := by
  constructor
  · cases hr : d.rotate <;> simp [resolveDoor, hr]
  · rfl

/-- Claim C10 (confirmed): interior walls and windows do not depend on the
plan's wall thickness — interior walls carry the fixed thickness extent
0.15 (on x for vertical walls, on y for horizontal ones), windows carry the
fixed thin extent 0.15 and sill height 0.9 — so two plans agreeing on
width, depth and height (differing only in wall thickness) produce outputs
that agree everywhere except possibly the four outer-wall descriptors at
positions 1-4. -/
theorem C10_thickness_independence (p q : PlanSpec)
    (hw : p.width = q.width) (hd : p.depth = q.depth) (hh : p.height = q.height) :
    (buildLayout p).take 1 = (buildLayout q).take 1 ∧
    (buildLayout p).drop 5 = (buildLayout q).drop 5 ∧
    (∀ d ∈ create_interior_walls, d.extents.x = 0.15 ∨ d.extents.y = 0.15) ∧
    (∀ (n : String) (w : WindowData),
      ((resolveWindow n w).extents.x = 0.15 ∨ (resolveWindow n w).extents.y = 0.15) ∧
      (resolveWindow n w).center.z = 0.9 + w.height / 2) := by
  refine ⟨?_, rfl, ?_, ?_⟩
  · show [create_floor p.width p.depth] = [create_floor q.width q.depth]
    rw [hw, hd]
  · intro d hmem
    have hlist : create_interior_walls =
        [resolveWall "InteriorWall_1" (6.0, 0.0) (6.0, 9.0) 2.4 interior_wall_thickness,
         resolveWall "InteriorWall_2" (9.0, 9.0) (18.0, 9.0) 2.4 interior_wall_thickness,
         resolveWall "InteriorWall_3" (9.0, 0.0) (9.0, 9.0) 2.4 interior_wall_thickness,
         resolveWall "InteriorWall_4" (12.0, 5.0) (18.0, 5.0) 2.4 interior_wall_thickness,
         resolveWall "InteriorWall_5" (15.0, 5.0) (15.0, 9.0) 2.4 interior_wall_thickness]
        := rfl
    rw [hlist] at hmem
    simp only [List.mem_cons, List.not_mem_nil, or_false] at hmem
    rcases hmem with h | h | h | h | h <;> subst h <;> rw [resolveWall_extents]
    · left
      rw [if_neg (by norm_num)]
      rfl
    · right
      rw [if_pos (by norm_num)]
      rfl
    · left
      rw [if_neg (by norm_num)]
      rfl
    · right
      rw [if_pos (by norm_num)]
      rfl
    · left
      rw [if_neg (by norm_num)]
      rfl
  · intro n w
    constructor
    · cases hr : w.rotate <;> simp [resolveWindow, hr, window_wall_thickness]
    · show window_sill_height + w.height / 2 = 0.9 + w.height / 2
      rw [window_sill_height]

/-- Witness for claim C10: the script's plan and the same plan with wall
thickness 0.3 instead of 0.15. -/
theorem C10_thickness_independence_witness :
    (buildLayout ⟨18, 9, 2.4, 0.15⟩).take 1 = (buildLayout ⟨18, 9, 2.4, 0.3⟩).take 1 ∧
    (buildLayout ⟨18, 9, 2.4, 0.15⟩).drop 5 = (buildLayout ⟨18, 9, 2.4, 0.3⟩).drop 5 ∧
    (∀ d ∈ create_interior_walls, d.extents.x = 0.15 ∨ d.extents.y = 0.15) ∧
    (∀ (n : String) (w : WindowData),
      ((resolveWindow n w).extents.x = 0.15 ∨ (resolveWindow n w).extents.y = 0.15) ∧
      (resolveWindow n w).center.z = 0.9 + w.height / 2) :=
  C10_thickness_independence ⟨18, 9, 2.4, 0.15⟩ ⟨18, 9, 2.4, 0.3⟩ rfl rfl rfl
